import Mathlib

/-!
# Verification of the `kubefirst harvester` command wiring and its provisioning contract

Shallow embedding of `cmd/harvester/command.go`.  The `create` subcommand's
`RunE` body is translated into a pure function `createRunE` that, given the
outcomes of its external collaborators, returns the trace of observable calls
(progress-step reporting, client/provisioner construction, phase execution)
together with the `error` result (`Option GoErr`, `none` standing for Go's
`nil`).

Functions of this repository that are called from `command.go` but whose
source files are not available (`ValidateProvidedFlags` of the same package,
`utilities.GetFlags`, `provision.ProvisionManagementCluster`) are modelled
from the specification; each such definition carries a doc comment starting
with `Modelled from the spec:`.
-/

namespace Harvester

/-- A Go `error` value: either a base error or an error produced by
`fmt.Errorf("<context>: %w", err)`, which wraps `err` with a context
message. -/
inductive GoErr where
  | base : String → GoErr
  | wrap : String → GoErr → GoErr
deriving DecidableEq

/-- The observable calls the `create` command and the provisioner make, in
order: step-reporter notifications (`DisplayLogHints`, `NewProgressStep`,
`CompleteCurrentStep`, `FailCurrentStep`), the external validation calls, the
construction of the Cluster Client and the Provisioner, the invocation of
`ProvisionManagementCluster`, and the execution of an individual provisioning
phase's run function. -/
inductive Event where
  | displayLogHints : String → Nat → Event
  | newProgressStep : String → Event
  | completeCurrentStep : Event
  | failCurrentStep : GoErr → Event
  | getFlagsCall : Event
  | validateCatalogAppsCall : Event
  | validateProvidedFlagsCall : Event
  | constructClusterClient : Event
  | constructProvisioner : Event
  | provisionCall : Event
  | phaseRun : String → Event
deriving DecidableEq

/-- The fields of the resolved CLI flag struct (`types.CliFlags`) that the
harvester `create` command reads: cluster name, git provider and protocol,
the raw catalog-app list and the `stop-after` halt-phase selector. -/
structure CliFlags where
  clusterName : String
  gitProvider : String
  gitProtocol : String
  installCatalogApps : String
  stopAfter : String
deriving DecidableEq

/-- From `command.go`: `supportedGitProviders = []string{"github", "gitlab"}`. -/
def supportedGitProviders : List String := ["github", "gitlab"]

/-- From `command.go`:
`supportedGitProtocolOverride = []string{"https", "ssh"}`. -/
def supportedGitProtocolOverride : List String := ["https", "ssh"]

/-- Modelled from the spec: `ValidateProvidedFlags` belongs to the same Go
package but its defining file is not among the provided sources.  Per the
spec's configuration validation gate, it checks that the "git provider is one
of the supported set {github, gitlab}" (the package-level
`supportedGitProviders` list) and fails with a descriptive validation error
otherwise. -/
def ValidateProvidedFlags (gitProvider : String) : Option GoErr :=
  if supportedGitProviders.contains gitProvider then
    none
  else
    some (GoErr.base ("invalid git provider: " ++ gitProvider))

/-- The raw CLI flag values the flag-resolution step consumes (only the ones
relevant to the spec's validation gate are modelled). -/
structure RawFlags where
  clusterName : String
  gitProvider : String
  gitProtocol : String
  installCatalogApps : String
  stopAfter : String
deriving DecidableEq

/-- Modelled from the spec: `utilities.GetFlags` is not among the provided
sources.  Per the spec, flag resolution produces the immutable configuration
value and the gate checks that the "git protocol override, if given, is one
of {https, ssh}" (`supportedGitProtocolOverride`) before any infrastructure
action. -/
def GetFlags (raw : RawFlags) : Except GoErr CliFlags :=
  if raw.gitProtocol != "" && !(supportedGitProtocolOverride.contains raw.gitProtocol) then
    Except.error (GoErr.base ("invalid git protocol: " ++ raw.gitProtocol))
  else
    Except.ok
      { clusterName := raw.clusterName
        gitProvider := raw.gitProvider
        gitProtocol := raw.gitProtocol
        installCatalogApps := raw.installCatalogApps
        stopAfter := raw.stopAfter }

/-- The outcome a provisioning phase's run function produces in one run:
success, or failure with a cause. -/
inductive PhaseOutcome where
  | success : PhaseOutcome
  | failure : GoErr → PhaseOutcome
deriving DecidableEq

/-- A registered provisioning phase: its unique name together with the
outcome its run function produces in the run under consideration. -/
structure Phase where
  name : String
  outcome : PhaseOutcome
deriving DecidableEq

/-- Modelled from the spec: the halt-phase checkpoint names that the Phase
Registry exposes as a stable contract (`stop-after` flag values
`argocd|ingress|vcluster|vault`). -/
def phaseRegistryNames : List String := ["argocd", "ingress", "vcluster", "vault"]

/-- Modelled from the spec: the context message wrapping a phase failure,
which identifies the failing phase by name. -/
def phaseFailureContext (name : String) : String :=
  "failed to execute phase " ++ name

/-- Modelled from the spec: the Provisioner's core loop.  For each phase in
registry order it emits `started` (a new progress step), invokes the phase's
run function, and on success emits `completed` and advances; on failure it
emits `failed(cause)` and returns the cause wrapped with the phase's
identity, executing no further phase.  After a phase completes, if its name
equals the configured halt-phase the run returns success immediately,
skipping all remaining phases. -/
def runPhases : List Phase → String → List Event × Option GoErr
  | [], _ => ([], none)
  | p :: rest, halt =>
    match p.outcome with
    | PhaseOutcome.failure c =>
      ([Event.newProgressStep p.name, Event.phaseRun p.name,
        Event.failCurrentStep (GoErr.wrap (phaseFailureContext p.name) c)],
       some (GoErr.wrap (phaseFailureContext p.name) c))
    | PhaseOutcome.success =>
      if p.name = halt then
        ([Event.newProgressStep p.name, Event.phaseRun p.name,
          Event.completeCurrentStep], none)
      else
        let r := runPhases rest halt
        ([Event.newProgressStep p.name, Event.phaseRun p.name,
          Event.completeCurrentStep] ++ r.1, r.2)

/-- Modelled from the spec: `provision.ProvisionManagementCluster` is not
among the provided sources.  Per the spec's invocation contract it returns
nil on full completion or intentional checkpoint halt and a non-nil error on
any phase failure or invalid configuration; the halt-phase selector, if set,
must name a registered phase, validated before any phase executes.  The
catalog-app list is consumed by the phases themselves and does not influence
the orchestration skeleton. -/
def ProvisionManagementCluster (phases : List Phase) (flags : CliFlags)
    (catalogApps : List String) : List Event × Option GoErr :=
  let _ := catalogApps
  if flags.stopAfter != "" && !((phases.map Phase.name).contains flags.stopAfter) then
    ([], some (GoErr.base ("invalid stop-after phase: " ++ flags.stopAfter)))
  else
    runPhases phases flags.stopAfter

/-- The outcomes of the `create` command's external collaborators for one
invocation: the result of `utilities.GetFlags`, the result of
`catalog.ValidateCatalogApps` as a function of the raw catalog-app flag, and
the behaviour (emitted events and returned error) of
`provision.ProvisionManagementCluster` as a function of the resolved flags
and the validated catalog apps. -/
structure CreateEnv where
  getFlags : Except GoErr CliFlags
  validateCatalogApps : String → Except GoErr (List String)
  pmc : CliFlags → List String → List Event × Option GoErr

/-- Shallow embedding of the `RunE` body of the `create` subcommand in
`command.go`: display log hints for `"harvester"` with a 25-minute estimate,
begin the `"Validate Configuration"` step, resolve flags, validate catalog
apps, validate the provided flags — failing the current step and returning
the wrapped error on each failure — then complete the step, construct the
Cluster Client and the Provisioner, and call `ProvisionManagementCluster`,
wrapping its error with `"failed to create harvester management cluster"`. -/
def createRunE (env : CreateEnv) : List Event × Option GoErr :=
  let t0 : List Event :=
    [Event.displayLogHints "harvester" 25,
     Event.newProgressStep "Validate Configuration",
     Event.getFlagsCall]
  match env.getFlags with
  | Except.error e =>
    let w := GoErr.wrap "failed to get flags" e
    (t0 ++ [Event.failCurrentStep w], some w)
  | Except.ok cliFlags =>
    match env.validateCatalogApps cliFlags.installCatalogApps with
    | Except.error e =>
      let w := GoErr.wrap "validation of catalog apps failed" e
      (t0 ++ [Event.validateCatalogAppsCall, Event.failCurrentStep w], some w)
    | Except.ok catalogApps =>
      match ValidateProvidedFlags cliFlags.gitProvider with
      | some e =>
        let w := GoErr.wrap "provided flags validation failed" e
        (t0 ++ [Event.validateCatalogAppsCall, Event.validateProvidedFlagsCall,
                Event.failCurrentStep w], some w)
      | none =>
        let t1 := t0 ++
          [Event.validateCatalogAppsCall, Event.validateProvidedFlagsCall,
           Event.completeCurrentStep, Event.constructClusterClient,
           Event.constructProvisioner, Event.provisionCall]
        let p := env.pmc cliFlags catalogApps
        match p.2 with
        | some e =>
          (t1 ++ p.1, some (GoErr.wrap "failed to create harvester management cluster" e))
        | none => (t1 ++ p.1, none)

/-- Shallow embedding of the `RunE` body of the `destroy` subcommand: it
performs no action and returns the not-yet-implemented error. -/
def destroyRunE (args : List String) : List Event × Option GoErr :=
  let _ := args
  ([], some (GoErr.base "destroy command not yet implemented"))

/-- Shallow embedding of the `RunE` body of the `root-credentials`
subcommand: it performs no action and returns the not-yet-implemented
error. -/
def rootCredentialsRunE (args : List String) : List Event × Option GoErr :=
  let _ := args
  ([], some (GoErr.base "root-credentials command not yet implemented"))

/-- Whether the `create` command's three-part validation gate (flag
resolution, catalog-app validation, provided-flag validation) passes for a
given environment. -/
def validationGatePasses (env : CreateEnv) : Bool :=
  match env.getFlags with
  | Except.error _ => false
  | Except.ok cliFlags =>
    match env.validateCatalogApps cliFlags.installCatalogApps with
    | Except.error _ => false
    | Except.ok _ => (ValidateProvidedFlags cliFlags.gitProvider).isNone

/-- The phase names whose run functions were invoked, in execution order, as
recorded in a trace. -/
def phaseRunsOf (tr : List Event) : List String :=
  tr.filterMap fun e =>
    match e with
    | Event.phaseRun n => some n
    | _ => none

/-- Whether an event touches provisioning machinery or external resources:
constructing the Cluster Client or the Provisioner, calling
`ProvisionManagementCluster`, or running a phase. -/
def touchesProvisioning : Event → Bool
  | Event.constructClusterClient => true
  | Event.constructProvisioner => true
  | Event.provisionCall => true
  | Event.phaseRun _ => true
  | _ => false

/-- Strict alternation of step-reporter calls in a trace: scanning left to
right with an "is a step currently active" flag, `NewProgressStep` requires
no active step and opens one, `CompleteCurrentStep`/`FailCurrentStep` require
an active step and close it, other events are ignored, and no step is left
open at the end. -/
def stepOk : Bool → List Event → Bool
  | active, [] => !active
  | active, e :: rest =>
    match e with
    | Event.newProgressStep _ => !active && stepOk true rest
    | Event.completeCurrentStep => active && stepOk false rest
    | Event.failCurrentStep _ => active && stepOk false rest
    | _ => stepOk active rest

/-- A sample resolved flag struct used by witnesses. -/
def sampleFlags : CliFlags :=
  { clusterName := "kubefirst", gitProvider := "github", gitProtocol := "ssh",
    installCatalogApps := "", stopAfter := "" }

/-- A sample phase registry, all phases succeeding, used by witnesses. -/
def samplePhases : List Phase :=
  [⟨"argocd", PhaseOutcome.success⟩, ⟨"ingress", PhaseOutcome.success⟩,
   ⟨"vcluster", PhaseOutcome.success⟩, ⟨"vault", PhaseOutcome.success⟩]

/-- C1: for every invocation of the create command that reaches
`ProvisionManagementCluster` (all three validation steps succeeded), the
command returns nil exactly when `ProvisionManagementCluster` returns nil,
and when it returns a non-nil error the command returns that error wrapped
with the context message "failed to create harvester management cluster". -/
theorem create_returns_nil_iff_provision_ok (env : CreateEnv) (flags : CliFlags)
    (apps : List String)
    (hgf : env.getFlags = Except.ok flags)
    (hvc : env.validateCatalogApps flags.installCatalogApps = Except.ok apps)
    (hvp : ValidateProvidedFlags flags.gitProvider = none) :
    ((createRunE env).2 = none ↔ (env.pmc flags apps).2 = none) ∧
    (∀ e, (env.pmc flags apps).2 = some e →
      (createRunE env).2 =
        some (GoErr.wrap "failed to create harvester management cluster" e)) := by
  cases hr : (env.pmc flags apps).2 with
  | none => simp [createRunE, hgf, hvc, hvp, hr]
  | some e => simp [createRunE, hgf, hvc, hvp, hr]

/-- Witness for C1 at a concrete environment where provisioning succeeds. -/
theorem create_returns_nil_iff_provision_ok_witness :
    ((createRunE
        { getFlags := Except.ok sampleFlags,
          validateCatalogApps := fun _ => Except.ok [],
          pmc := fun _ _ => ([], none) }).2 = none ↔
      (([] : List Event), (none : Option GoErr)).2 = none) ∧
    (∀ e, (([] : List Event), (none : Option GoErr)).2 = some e →
      (createRunE
        { getFlags := Except.ok sampleFlags,
          validateCatalogApps := fun _ => Except.ok [],
          pmc := fun _ _ => ([], none) }).2 =
        some (GoErr.wrap "failed to create harvester management cluster" e)) :=
  create_returns_nil_iff_provision_ok
    { getFlags := Except.ok sampleFlags,
      validateCatalogApps := fun _ => Except.ok [],
      pmc := fun _ _ => ([], none) }
    sampleFlags [] rfl rfl (by decide)

/-- C9: the destroy and root-credentials subcommands always return the
respective not-yet-implemented error and perform no other action (their
traces are empty). -/
theorem stub_subcommands_return_not_implemented (args args' : List String) :
    destroyRunE args = ([], some (GoErr.base "destroy command not yet implemented")) ∧
    rootCredentialsRunE args' =
      ([], some (GoErr.base "root-credentials command not yet implemented")) :=
  ⟨rfl, rfl⟩

/-- C10: on every execution of the create command, regardless of the
environment, the first three observable events are `DisplayLogHints` with
cloud provider "harvester" and a 25-minute estimate, the beginning of the
"Validate Configuration" progress step, and only then the flag-retrieval
call. -/
theorem hints_and_step_precede_flag_retrieval (env : CreateEnv) :
    (createRunE env).1.take 3 =
      [Event.displayLogHints "harvester" 25,
       Event.newProgressStep "Validate Configuration",
       Event.getFlagsCall] := by
  cases hgf : env.getFlags with
  | error e => simp [createRunE, hgf]
  | ok flags =>
    cases hvc : env.validateCatalogApps flags.installCatalogApps with
    | error e => simp [createRunE, hgf, hvc]
    | ok apps =>
      cases hvp : ValidateProvidedFlags flags.gitProvider with
      | some e => simp [createRunE, hgf, hvc, hvp]
      | none =>
        cases hr : (env.pmc flags apps).2 with
        | none => simp [createRunE, hgf, hvc, hvp, hr]
        | some e => simp [createRunE, hgf, hvc, hvp, hr]

/-- C2: whenever the validation gate fails (flag resolution, catalog-app
validation, or git-provider validation), the create command returns a
non-nil error and its trace contains no construction of the Cluster Client,
no construction of the Provisioner, no call to
`ProvisionManagementCluster`, and no phase execution. -/
theorem validation_failure_is_terminal (env : CreateEnv)
    (h : validationGatePasses env = false) :
    (∃ e, (createRunE env).2 = some e) ∧
    (createRunE env).1.all (fun ev => !touchesProvisioning ev) = true := by
  cases hgf : env.getFlags with
  | error e => simp [createRunE, hgf, touchesProvisioning]
  | ok flags =>
    cases hvc : env.validateCatalogApps flags.installCatalogApps with
    | error e => simp [createRunE, hgf, hvc, touchesProvisioning]
    | ok apps =>
      cases hvp : ValidateProvidedFlags flags.gitProvider with
      | some e => simp [createRunE, hgf, hvc, hvp, touchesProvisioning]
      | none => simp [validationGatePasses, hgf, hvc, hvp] at h

/-- Witness for C2: an environment whose flag resolution fails. -/
theorem validation_failure_is_terminal_witness :
    (∃ e, (createRunE
      { getFlags := Except.error (GoErr.base "required flag alerts-email not set"),
        validateCatalogApps := fun _ => Except.ok [],
        pmc := fun _ _ => ([], none) }).2 = some e) ∧
    (createRunE
      { getFlags := Except.error (GoErr.base "required flag alerts-email not set"),
        validateCatalogApps := fun _ => Except.ok [],
        pmc := fun _ _ => ([], none) }).1.all
        (fun ev => !touchesProvisioning ev) = true :=
  validation_failure_is_terminal
    { getFlags := Except.error (GoErr.base "required flag alerts-email not set"),
      validateCatalogApps := fun _ => Except.ok [],
      pmc := fun _ _ => ([], none) } rfl

/-- C4: on every terminal validation error of the create command, the very
error value the command returns is also passed to `FailCurrentStep` on the
step reporter before the command returns (it appears in the trace). -/
theorem fail_step_matches_returned_error (env : CreateEnv)
    (h : validationGatePasses env = false) :
    ∃ e, (createRunE env).2 = some e ∧
      Event.failCurrentStep e ∈ (createRunE env).1 := by
  cases hgf : env.getFlags with
  | error e => refine ⟨GoErr.wrap "failed to get flags" e, ?_⟩; simp [createRunE, hgf]
  | ok flags =>
    cases hvc : env.validateCatalogApps flags.installCatalogApps with
    | error e =>
      refine ⟨GoErr.wrap "validation of catalog apps failed" e, ?_⟩
      simp [createRunE, hgf, hvc]
    | ok apps =>
      cases hvp : ValidateProvidedFlags flags.gitProvider with
      | some e =>
        refine ⟨GoErr.wrap "provided flags validation failed" e, ?_⟩
        simp [createRunE, hgf, hvc, hvp]
      | none => simp [validationGatePasses, hgf, hvc, hvp] at h

/-- Witness for C4: an environment whose git-provider validation fails. -/
theorem fail_step_matches_returned_error_witness :
    ∃ e, (createRunE
      { getFlags := Except.ok { sampleFlags with gitProvider := "bitbucket" },
        validateCatalogApps := fun _ => Except.ok [],
        pmc := fun _ _ => ([], none) }).2 = some e ∧
      Event.failCurrentStep e ∈ (createRunE
      { getFlags := Except.ok { sampleFlags with gitProvider := "bitbucket" },
        validateCatalogApps := fun _ => Except.ok [],
        pmc := fun _ _ => ([], none) }).1 :=
  fail_step_matches_returned_error
    { getFlags := Except.ok { sampleFlags with gitProvider := "bitbucket" },
      validateCatalogApps := fun _ => Except.ok [],
      pmc := fun _ _ => ([], none) } (by decide)

/-- Helper: when the halt-phase validation check passes,
`ProvisionManagementCluster` is the phase loop. -/
theorem PMC_eq_runPhases (ps : List Phase) (flags : CliFlags) (apps : List String)
    (hcond : (flags.stopAfter != "" &&
      !((ps.map Phase.name).contains flags.stopAfter)) = false) :
    ProvisionManagementCluster ps flags apps = runPhases ps flags.stopAfter := by
  unfold ProvisionManagementCluster
  rw [hcond]
  rfl

/-- Helper: when the halt-phase validation check fails,
`ProvisionManagementCluster` rejects the configuration with no events. -/
theorem PMC_eq_reject (ps : List Phase) (flags : CliFlags) (apps : List String)
    (hcond : (flags.stopAfter != "" &&
      !((ps.map Phase.name).contains flags.stopAfter)) = true) :
    ProvisionManagementCluster ps flags apps =
      ([], some (GoErr.base ("invalid stop-after phase: " ++ flags.stopAfter))) := by
  unfold ProvisionManagementCluster
  rw [hcond]
  rfl

/-- Helper: if every phase before the failing one succeeds and none of them
is the halt checkpoint, the phase loop runs exactly the phases up to and
including the failing one and returns the cause wrapped with the failing
phase's identity. -/
theorem runPhases_fail_spec (pre : List Phase) (pk : Phase) (post : List Phase)
    (c : GoErr) (halt : String)
    (hpre : ∀ p ∈ pre, p.outcome = PhaseOutcome.success)
    (hk : pk.outcome = PhaseOutcome.failure c)
    (hnohalt : (pre.map Phase.name).contains halt = false) :
    (runPhases (pre ++ pk :: post) halt).2 =
      some (GoErr.wrap (phaseFailureContext pk.name) c) ∧
    phaseRunsOf (runPhases (pre ++ pk :: post) halt).1 =
      pre.map Phase.name ++ [pk.name] := by
  induction pre with
  | nil => simp [runPhases, hk, phaseRunsOf]
  | cons p pre ih =>
    have hp : p.outcome = PhaseOutcome.success := hpre p (List.mem_cons_self _ _)
    have hrest : ∀ q ∈ pre, q.outcome = PhaseOutcome.success := fun q hq =>
      hpre q (List.mem_cons_of_mem _ hq)
    rw [List.map_cons, List.contains_cons] at hnohalt
    obtain ⟨h1, h2⟩ := Bool.or_eq_false_iff.mp hnohalt
    have hne : ¬ p.name = halt := by
      intro h
      rw [h] at h1
      simp at h1
    have hih := ih hrest h2
    simp only [List.cons_append, runPhases, hp, hne, if_false]
    refine ⟨hih.1, ?_⟩
    simp only [phaseRunsOf, List.filterMap_cons, List.map_cons, List.cons_append]
    exact congrArg (p.name :: ·) hih.2

/-- C3: for any phase sequence in which phase k fails during
`ProvisionManagementCluster` (every earlier phase succeeds and no earlier
phase is the halt checkpoint, the halt selector being empty or registered),
the phases after k never execute — the executed phases are exactly those up
to and including k — and the returned error wraps the cause with the failure
context naming phase k. -/
theorem phase_failure_stops_pipeline (pre post : List Phase) (pk : Phase) (c : GoErr)
    (flags : CliFlags) (apps : List String)
    (hpre : ∀ p ∈ pre, p.outcome = PhaseOutcome.success)
    (hk : pk.outcome = PhaseOutcome.failure c)
    (hvalid : flags.stopAfter = "" ∨
      (((pre ++ pk :: post).map Phase.name).contains flags.stopAfter) = true)
    (hnohalt : (pre.map Phase.name).contains flags.stopAfter = false) :
    (ProvisionManagementCluster (pre ++ pk :: post) flags apps).2 =
      some (GoErr.wrap (phaseFailureContext pk.name) c) ∧
    phaseRunsOf (ProvisionManagementCluster (pre ++ pk :: post) flags apps).1 =
      pre.map Phase.name ++ [pk.name] := by
  have hcond : (flags.stopAfter != "" &&
      !(((pre ++ pk :: post).map Phase.name).contains flags.stopAfter)) = false := by
    rcases hvalid with h | h
    · rw [h]
      simp only [bne_self_eq_false, Bool.false_and]
    · rw [h]
      simp only [Bool.not_true, Bool.and_false]
  rw [PMC_eq_runPhases _ _ _ hcond]
  exact runPhases_fail_spec pre pk post c flags.stopAfter hpre hk hnohalt

/-- The phases before the failing one in the C3 witness run. -/
def failingPre : List Phase := [⟨"argocd", PhaseOutcome.success⟩]

/-- The failing phase of the C3 witness run. -/
def failingPk : Phase := ⟨"ingress", PhaseOutcome.failure (GoErr.base "dns provisioning error")⟩

/-- The phases after the failing one in the C3 witness run. -/
def failingPost : List Phase :=
  [⟨"vcluster", PhaseOutcome.success⟩, ⟨"vault", PhaseOutcome.success⟩]

/-- Witness for C3: with `ingress` failing after a successful `argocd`, only
`argocd` and `ingress` run and the error names `ingress`. -/
theorem phase_failure_stops_pipeline_witness :
    (ProvisionManagementCluster (failingPre ++ failingPk :: failingPost) sampleFlags []).2 =
      some (GoErr.wrap (phaseFailureContext "ingress") (GoErr.base "dns provisioning error")) ∧
    phaseRunsOf
      (ProvisionManagementCluster (failingPre ++ failingPk :: failingPost) sampleFlags []).1 =
      failingPre.map Phase.name ++ ["ingress"] :=
  phase_failure_stops_pipeline failingPre failingPost failingPk
    (GoErr.base "dns provisioning error") sampleFlags []
    (by decide) (by decide) (Or.inl rfl) (by decide)

/-- C6: for every non-empty `stop-after` value that is not a registered
phase name, `ProvisionManagementCluster` fails with an error and no phase's
run function is ever invoked. -/
theorem invalid_halt_phase_rejected (ps : List Phase) (flags : CliFlags) (apps : List String)
    (hnames : ps.map Phase.name = phaseRegistryNames)
    (hne : flags.stopAfter ≠ "")
    (hnot : phaseRegistryNames.contains flags.stopAfter = false) :
    (∃ e, (ProvisionManagementCluster ps flags apps).2 = some e) ∧
    phaseRunsOf (ProvisionManagementCluster ps flags apps).1 = [] := by
  have hcond : (flags.stopAfter != "" &&
      !((ps.map Phase.name).contains flags.stopAfter)) = true := by
    rw [hnames, hnot]
    simp only [Bool.not_false, Bool.and_true]
    exact bne_iff_ne.mpr hne
  rw [PMC_eq_reject _ _ _ hcond]
  exact ⟨⟨_, rfl⟩, rfl⟩

/-- Witness for C6: `stop-after` set to `bogus` against the registered
phases is rejected with no phase executed. -/
theorem invalid_halt_phase_rejected_witness :
    (∃ e, (ProvisionManagementCluster samplePhases
      { sampleFlags with stopAfter := "bogus" } []).2 = some e) ∧
    phaseRunsOf (ProvisionManagementCluster samplePhases
      { sampleFlags with stopAfter := "bogus" } []).1 = [] :=
  invalid_halt_phase_rejected samplePhases
    { sampleFlags with stopAfter := "bogus" } []
    (by decide) (by decide) (by decide)

/-- Helper: the phase loop's step-reporter calls strictly alternate. -/
theorem stepOk_runPhases (ps : List Phase) (halt : String) :
    stepOk false (runPhases ps halt).1 = true := by
  induction ps with
  | nil => rfl
  | cons p rest ih =>
    cases hp : p.outcome with
    | failure c => simp [runPhases, hp, stepOk]
    | success =>
      by_cases hn : p.name = halt
      · simp [runPhases, hp, hn, stepOk]
      · simp [runPhases, hp, hn, stepOk, ih]

/-- Helper: `ProvisionManagementCluster`'s step-reporter calls strictly
alternate. -/
theorem stepOk_ProvisionManagementCluster (ps : List Phase) (flags : CliFlags)
    (apps : List String) :
    stepOk false (ProvisionManagementCluster ps flags apps).1 = true := by
  by_cases hcond : (flags.stopAfter != "" &&
      !((ps.map Phase.name).contains flags.stopAfter)) = true
  · rw [PMC_eq_reject _ _ _ hcond]
    rfl
  · rw [Bool.not_eq_true] at hcond
    rw [PMC_eq_runPhases _ _ _ hcond]
    exact stepOk_runPhases ps flags.stopAfter

/-- C5: in every execution of the create command whose provisioner is the
spec-modelled `ProvisionManagementCluster`, step-reporter calls strictly
alternate — every `NewProgressStep` is closed by exactly one
`CompleteCurrentStep`/`FailCurrentStep` before the next one, and at most one
step is active at a time. -/
theorem step_events_strictly_alternate (env : CreateEnv) (phases : List Phase)
    (hpmc : env.pmc = fun flags apps => ProvisionManagementCluster phases flags apps) :
    stepOk false (createRunE env).1 = true := by
  cases hgf : env.getFlags with
  | error e => simp [createRunE, hgf, stepOk]
  | ok flags =>
    cases hvc : env.validateCatalogApps flags.installCatalogApps with
    | error e => simp [createRunE, hgf, hvc, stepOk]
    | ok apps =>
      cases hvp : ValidateProvidedFlags flags.gitProvider with
      | some e => simp [createRunE, hgf, hvc, hvp, stepOk]
      | none =>
        cases hr : (ProvisionManagementCluster phases flags apps).2 with
        | none =>
          simp [createRunE, hgf, hvc, hvp, hpmc, hr, stepOk,
            stepOk_ProvisionManagementCluster]
        | some e =>
          simp [createRunE, hgf, hvc, hvp, hpmc, hr, stepOk,
            stepOk_ProvisionManagementCluster]

/-- The environment of the C5 witness: the spec-modelled provisioner over
the sample registry. -/
def altEnv : CreateEnv :=
  { getFlags := Except.ok sampleFlags,
    validateCatalogApps := fun _ => Except.ok [],
    pmc := fun flags apps => ProvisionManagementCluster samplePhases flags apps }

/-- Witness for C5 at a concrete successful run. -/
theorem step_events_strictly_alternate_witness :
    stepOk false (createRunE altEnv).1 = true :=
  step_events_strictly_alternate altEnv samplePhases rfl

/-- Helper: membership of a git provider in the supported list, as a
propositional disjunction. -/
theorem supportedGitProviders_contains_iff (g : String) :
    supportedGitProviders.contains g = true ↔ (g = "github" ∨ g = "gitlab") := by
  simp [supportedGitProviders, List.contains_cons]

/-- C7: the validation gate accepts a git provider exactly when it belongs
to {github, gitlab}; for every other value `ValidateProvidedFlags` returns
an error and the create command returns a non-nil error without ever calling
`ProvisionManagementCluster`. -/
theorem git_provider_gate_iff_supported (g : String) (env : CreateEnv)
    (flags : CliFlags) (apps : List String)
    (hgf : env.getFlags = Except.ok flags)
    (hvc : env.validateCatalogApps flags.installCatalogApps = Except.ok apps)
    (hg : flags.gitProvider = g) :
    (ValidateProvidedFlags g = none ↔ (g = "github" ∨ g = "gitlab")) ∧
    (¬(g = "github" ∨ g = "gitlab") →
      (∃ e, (createRunE env).2 = some e) ∧
      Event.provisionCall ∉ (createRunE env).1) := by
  constructor
  · constructor
    · intro h
      by_cases hc2 : supportedGitProviders.contains g = true
      · exact (supportedGitProviders_contains_iff g).mp hc2
      · exfalso
        rw [Bool.not_eq_true] at hc2
        unfold ValidateProvidedFlags at h
        rw [hc2] at h
        simp at h
    · intro h
      unfold ValidateProvidedFlags
      rw [(supportedGitProviders_contains_iff g).mpr h]
      rfl
  · intro hns
    have hcf : supportedGitProviders.contains g = false := by
      rw [← Bool.not_eq_true]
      intro hc2
      exact hns ((supportedGitProviders_contains_iff g).mp hc2)
    have he : ValidateProvidedFlags flags.gitProvider =
        some (GoErr.base ("invalid git provider: " ++ g)) := by
      rw [hg]
      unfold ValidateProvidedFlags
      rw [hcf]
      rfl
    constructor
    · refine ⟨GoErr.wrap "provided flags validation failed"
        (GoErr.base ("invalid git provider: " ++ g)), ?_⟩
      simp [createRunE, hgf, hvc, he]
    · simp [createRunE, hgf, hvc, he]

/-- The resolved flags of the C7 witness: git provider `bitbucket`. -/
def bitbucketFlags : CliFlags := { sampleFlags with gitProvider := "bitbucket" }

/-- The environment of the C7 witness. -/
def envGitProvider : CreateEnv :=
  { getFlags := Except.ok bitbucketFlags,
    validateCatalogApps := fun _ => Except.ok [],
    pmc := fun _ _ => ([], none) }

/-- Witness for C7 at git provider `bitbucket`. -/
theorem git_provider_gate_iff_supported_witness :
    (ValidateProvidedFlags "bitbucket" = none ↔
      ("bitbucket" = "github" ∨ "bitbucket" = "gitlab")) ∧
    (¬("bitbucket" = "github" ∨ "bitbucket" = "gitlab") →
      (∃ e, (createRunE envGitProvider).2 = some e) ∧
      Event.provisionCall ∉ (createRunE envGitProvider).1) :=
  git_provider_gate_iff_supported "bitbucket" envGitProvider bitbucketFlags []
    rfl rfl rfl

/-- C8: for every git protocol value that is given (non-empty) and is not in
{https, ssh}, the flag-resolution gate fails, the create command returns a
non-nil error, and no provisioning call and no phase execution ever
happens. -/
theorem unsupported_git_protocol_rejected (raw : RawFlags) (env : CreateEnv)
    (hgf : env.getFlags = GetFlags raw)
    (hp : raw.gitProtocol ≠ "")
    (hs : supportedGitProtocolOverride.contains raw.gitProtocol = false) :
    (∃ e, (createRunE env).2 = some e) ∧
    Event.provisionCall ∉ (createRunE env).1 ∧
    (∀ n, Event.phaseRun n ∉ (createRunE env).1) := by
  have hget : GetFlags raw =
      Except.error (GoErr.base ("invalid git protocol: " ++ raw.gitProtocol)) := by
    unfold GetFlags
    have hcond : (raw.gitProtocol != "" &&
        !(supportedGitProtocolOverride.contains raw.gitProtocol)) = true := by
      rw [hs]
      simp only [Bool.not_false, Bool.and_true]
      exact bne_iff_ne.mpr hp
    rw [hcond]
    rfl
  have hgf' : env.getFlags =
      Except.error (GoErr.base ("invalid git protocol: " ++ raw.gitProtocol)) :=
    hgf.trans hget
  refine ⟨⟨GoErr.wrap "failed to get flags"
      (GoErr.base ("invalid git protocol: " ++ raw.gitProtocol)), ?_⟩, ?_, ?_⟩
  · simp [createRunE, hgf']
  · simp [createRunE, hgf']
  · intro n
    simp [createRunE, hgf']

/-- The raw flags of the C8 witness: git protocol `ftp`. -/
def ftpRawFlags : RawFlags :=
  { clusterName := "kubefirst", gitProvider := "github", gitProtocol := "ftp",
    installCatalogApps := "", stopAfter := "" }

/-- The environment of the C8 witness. -/
def envGitProtocol : CreateEnv :=
  { getFlags := GetFlags ftpRawFlags,
    validateCatalogApps := fun _ => Except.ok [],
    pmc := fun _ _ => ([], none) }

/-- Witness for C8 at git protocol `ftp`. -/
theorem unsupported_git_protocol_rejected_witness :
    (∃ e, (createRunE envGitProtocol).2 = some e) ∧
    Event.provisionCall ∉ (createRunE envGitProtocol).1 ∧
    (∀ n, Event.phaseRun n ∉ (createRunE envGitProtocol).1) :=
  unsupported_git_protocol_rejected ftpRawFlags envGitProtocol rfl
    (by decide) (by decide)

end Harvester
